import Mathlib

/-!
Shallow embedding of the oe-overlay backend service: the session-token
issuer and authorization gate (src/app/auth.py), the crafting claim engine
(src/app/routers/crafting.py) and the event attendance engine
(src/app/routers/events.py). Persistence is modelled as explicit lists of
rows; each HTTP handler becomes a pure function from the database state
and its inputs to an Except value carrying either the error kind it raises
or its result together with the updated database state. The row lock taken
by accept means the read-check-write sequence runs without interleaving,
so each handler is one atomic step on the state.
-/

namespace Overlay

/-- Error taxonomy of the service, one constructor per HTTPException kind
raised by the handlers (404 not found, 400 already-claimed conflict,
400 bad-input, 403 forbidden, 401 invalid token, 401 missing bearer). -/
inductive ApiError where
  | notFound
  | conflict
  | validationFailed
  | forbidden
  | unauthenticated
  | missingCredential
deriving Repr, DecidableEq

/-- Model of Python str.strip: drop leading and trailing whitespace. -/
def pyStrip (s : String) : String :=
  ((s.toList.dropWhile Char.isWhitespace).reverse.dropWhile Char.isWhitespace).reverse.asString

/-- The configuration fields consumed by the embedded handlers
(src/app/config.py Settings). -/
structure Settings where
  discord_allowed_guild_ids : List Int
  discord_event_role_ids : List String
  jwt_secret_key : String
  jwt_algorithm : String
  jwt_expire_minutes : Int
deriving Repr, DecidableEq

/-- src/app/auth.py AuthenticatedUser: the request-scoped principal.
The guild_roles dict is modelled as an association list. -/
structure AuthenticatedUser where
  id : String
  username : String
  discriminator : String
  guild_ids : List Int
  guild_roles : List (String × List String)
  can_create_events : Bool
deriving Repr, DecidableEq

/-- The JWT payload minted by create_access_token. -/
structure TokenClaims where
  sub : String
  username : String
  discriminator : String
  guild_ids : List Int
  guild_roles : List (String × List String)
  can_create_events : Bool
  exp : Int
  iss : String
deriving Repr, DecidableEq

/-- A signed compact token: the payload together with the key and
algorithm it was signed under. Signature verification is modelled as
comparing these against the decoding configuration. -/
structure SignedToken where
  claims : TokenClaims
  key : String
  alg : String
deriving Repr, DecidableEq

/-- src/app/auth.py create_access_token: serialize the principal claims
plus issuer tag and absolute expiry, signed with the configured key and
algorithm. Timestamps are seconds; the TTL is jwt_expire_minutes. -/
def create_access_token (user : AuthenticatedUser) (s : Settings) (now : Int) : SignedToken :=
  { claims :=
      { sub := user.id
        username := user.username
        discriminator := user.discriminator
        guild_ids := user.guild_ids
        guild_roles := user.guild_roles
        can_create_events := user.can_create_events
        exp := now + 60 * s.jwt_expire_minutes
        iss := "oe-overlay-service" }
    key := s.jwt_secret_key
    alg := s.jwt_algorithm }

/-- jose jwt.decode as used in get_current_user: verify the signature
(key and algorithm match) and the expiry; any failure collapses to the
single JWTError kind, modelled as unauthenticated. -/
def jwt_decode (tok : SignedToken) (key alg : String) (now : Int) :
    Except ApiError TokenClaims :=
  if tok.key = key ∧ tok.alg = alg ∧ now < tok.claims.exp then
    .ok tok.claims
  else
    .error .unauthenticated

/-- src/app/auth.py get_current_user: require a bearer credential, decode
the token, re-check the claimed guild ids against the configured
allow-list, and rebuild the principal from the claims. -/
def get_current_user (cred : Option SignedToken) (s : Settings) (now : Int) :
    Except ApiError AuthenticatedUser :=
  match cred with
  | none => .error .missingCredential
  | some tok =>
    match jwt_decode tok s.jwt_secret_key s.jwt_algorithm now with
    | .error e => .error e
    | .ok payload =>
      if payload.guild_ids.any (fun gid => s.discord_allowed_guild_ids.contains gid) then
        .ok
          { id := payload.sub
            username := payload.username
            discriminator := payload.discriminator
            guild_ids := payload.guild_ids
            guild_roles := payload.guild_roles
            can_create_events := payload.can_create_events }
      else
        .error .forbidden

/-- src/app/models.py CraftAssignment row (sans surrogate id; the table
has a unique constraint on request_id, so the row is embedded in its
owning request below). -/
structure CraftAssignment where
  crafter_id : String
  crafter_name : String
  meet_at : Int
  location : String
  estimated_completion : Option Int
  status : String
deriving Repr, DecidableEq

/-- src/app/models.py CraftRequest row, with its at-most-one assignment
embedded as an Option (request_id is unique on craft_assignments). -/
structure CraftRequest where
  id : Nat
  requester_id : String
  requester_name : String
  item_name : String
  quantity : Nat
  notes : Option String
  status : String
  created_at : Int
  assignment : Option CraftAssignment
deriving Repr, DecidableEq

/-- src/app/schemas.py CraftAssignmentCreate: the accept payload. -/
structure CraftAssignmentCreate where
  meet_at : Int
  location : String
  estimated_completion : Option Int
deriving Repr, DecidableEq

/-- SELECT ... WHERE CraftRequest.id == request_id, first row. -/
def findRequest (db : List CraftRequest) (request_id : Nat) : Option CraftRequest :=
  db.find? (fun r => r.id == request_id)

/-- Write back the updated row under the given primary key. -/
def replaceRequest (db : List CraftRequest) (request_id : Nat) (upd : CraftRequest) :
    List CraftRequest :=
  db.map (fun r => if r.id == request_id then upd else r)

/-- The assignment rows attached to a given request id in the state. -/
def assignmentsFor (db : List CraftRequest) (request_id : Nat) : List CraftAssignment :=
  (db.filter (fun r => r.id == request_id)).filterMap (fun r => r.assignment)

/-- src/app/routers/crafting.py accept_request. The handler selects the
request with_for_update, so the whole read-check-write sequence is one
atomic step on the database state, which this function performs: 404 when
the row is missing, 400 already-claimed when status is not open, 400 when
the stripped location is empty, else it inserts the one assignment row and
flips the request status to accepted. -/
def accept_request (db : List CraftRequest) (request_id : Nat)
    (payload : CraftAssignmentCreate) (user : AuthenticatedUser) :
    Except ApiError (CraftRequest × List CraftRequest) :=
  match findRequest db request_id with
  | none => .error .notFound
  | some craft_request =>
    if craft_request.status ≠ "open" then .error .conflict
    else if pyStrip payload.location = "" then .error .validationFailed
    else
      let asg : CraftAssignment :=
        { crafter_id := user.id
          crafter_name := user.username ++ "#" ++ user.discriminator
          meet_at := payload.meet_at
          location := pyStrip payload.location
          estimated_completion := payload.estimated_completion
          status := "accepted" }
      let upd := { craft_request with status := "accepted", assignment := some asg }
      .ok (upd, replaceRequest db request_id upd)

/-- Name for the assignment row accept_request inserts on success: the
same record literal as in the handler body. -/
def acceptedAssignment (user : AuthenticatedUser) (payload : CraftAssignmentCreate) :
    CraftAssignment :=
  { crafter_id := user.id
    crafter_name := user.username ++ "#" ++ user.discriminator
    meet_at := payload.meet_at
    location := pyStrip payload.location
    estimated_completion := payload.estimated_completion
    status := "accepted" }

/-- Name for the updated request row accept_request writes on success. -/
def acceptedRequest (cr : CraftRequest) (user : AuthenticatedUser)
    (payload : CraftAssignmentCreate) : CraftRequest :=
  { cr with status := "accepted", assignment := some (acceptedAssignment user payload) }

/-- src/app/routers/crafting.py complete_request: 404 when missing, 400
when no assignment exists yet, 403 unless the caller is the crafter or the
requester; on success the request becomes completed, the assignment
fulfilled, and estimated_completion is backfilled to now when unset
(Python x or now on an optional timestamp). -/
def complete_request (db : List CraftRequest) (request_id : Nat)
    (user : AuthenticatedUser) (now : Int) :
    Except ApiError (CraftRequest × List CraftRequest) :=
  match findRequest db request_id with
  | none => .error .notFound
  | some craft_request =>
    match craft_request.assignment with
    | none => .error .validationFailed
    | some asg =>
      if asg.crafter_id ≠ user.id ∧ craft_request.requester_id ≠ user.id then
        .error .forbidden
      else
        let updAsg :=
          { asg with
            status := "fulfilled"
            estimated_completion := some (asg.estimated_completion.getD now) }
        let upd := { craft_request with status := "completed", assignment := some updAsg }
        .ok (upd, replaceRequest db request_id upd)

/-- Name for the fulfilled assignment row complete_request writes: the
same update as in the handler body. -/
def fulfilledAssignment (asg : CraftAssignment) (now : Int) : CraftAssignment :=
  { asg with
    status := "fulfilled"
    estimated_completion := some (asg.estimated_completion.getD now) }

/-- Name for the completed request row complete_request writes. -/
def completedRequest (cr : CraftRequest) (asg : CraftAssignment) (now : Int) : CraftRequest :=
  { cr with status := "completed", assignment := some (fulfilledAssignment asg now) }

/-- src/app/routers/crafting.py cancel_request: 404 when missing, 403
unless the caller is the requester or the current assignee; otherwise the
request status becomes cancelled and, when an assignment exists, its
status becomes cancelled too. Note the handler never inspects the current
request status. -/
def cancel_request (db : List CraftRequest) (request_id : Nat) (user : AuthenticatedUser) :
    Except ApiError (CraftRequest × List CraftRequest) :=
  match findRequest db request_id with
  | none => .error .notFound
  | some craft_request =>
    let authorised : List String :=
      craft_request.requester_id ::
        (match craft_request.assignment with
         | some asg => [asg.crafter_id]
         | none => [])
    if user.id ∉ authorised then .error .forbidden
    else
      let upd :=
        { craft_request with
          status := "cancelled"
          assignment := craft_request.assignment.map (fun asg => { asg with status := "cancelled" }) }
      .ok (upd, replaceRequest db request_id upd)

/-- Strict lexicographic order on code-point lists, the comparison a SQL
ORDER BY performs on a varchar column under byte-order collation. -/
def lexLt : List Nat → List Nat → Bool
  | _, [] => false
  | [], _ :: _ => true
  | a :: as, b :: bs => a < b || (a == b && lexLt as bs)

/-- Collation key of a status string: its character code points. -/
def strKey (s : String) : List Nat :=
  s.toList.map Char.toNat

/-- The ORDER BY relation of list_requests: status ascending (as strings)
then created_at descending. -/
def requestOrder (a b : CraftRequest) : Prop :=
  lexLt (strKey a.status) (strKey b.status) = true ∨
    (a.status = b.status ∧ b.created_at ≤ a.created_at)

instance requestOrder.decRel : DecidableRel requestOrder := fun a b =>
  inferInstanceAs (Decidable (lexLt (strKey a.status) (strKey b.status) = true ∨
    (a.status = b.status ∧ b.created_at ≤ a.created_at)))

/-- src/app/routers/crafting.py list_requests: every request, ordered by
status ascending then created_at descending. -/
def list_requests (db : List CraftRequest) : List CraftRequest :=
  List.insertionSort requestOrder db

/-- src/app/models.py EventAttendee row. -/
structure EventAttendee where
  id : Nat
  event_id : Nat
  user_id : String
  username : String
  created_at : Int
deriving Repr, DecidableEq

/-- src/app/models.py Event row with its attendee collection. -/
structure Event where
  id : Nat
  title : String
  description : Option String
  start_at : Int
  timezone : Option String
  created_by : String
  guild_id : Option String
  required_role_ids : Option (List String)
  attendees : List EventAttendee
deriving Repr, DecidableEq

/-- The effective required-role resolution of _enforce_event_roles:
Python event.required_role_ids or settings.discord_event_role_ids, where
None and the empty list are both falsy. -/
def effectiveRoles (event : Event) (s : Settings) : List String :=
  match event.required_role_ids with
  | some roles => if roles.isEmpty then s.discord_event_role_ids else roles
  | none => s.discord_event_role_ids

/-- The guild resolution of _enforce_event_roles: Python event.guild_id
or str(user.guild_ids zero) when the user has any guild, else None; the
empty string is falsy. -/
def eventGuildId (event : Event) (user : AuthenticatedUser) : Option String :=
  match event.guild_id with
  | some g => if g = "" then user.guild_ids.head?.map toString else some g
  | none => user.guild_ids.head?.map toString

/-- src/app/routers/events.py _enforce_event_roles: admit when the
effective required-role set is empty or no guild id can be resolved,
otherwise require the user role list for that guild to intersect the
effective set, raising 403 when it does not. -/
def enforce_event_roles (event : Event) (user : AuthenticatedUser) (s : Settings) :
    Except ApiError Unit :=
  let required_roles := effectiveRoles event s
  if required_roles.isEmpty then .ok ()
  else
    match eventGuildId event user with
    | none => .ok ()
    | some gid =>
      let user_roles := (user.guild_roles.lookup gid).getD []
      if user_roles.any (fun role => required_roles.contains role) then .ok ()
      else .error .forbidden

/-- SELECT ... WHERE Event.id == event_id, first row. -/
def findEvent (events : List Event) (event_id : Nat) : Option Event :=
  events.find? (fun e => e.id == event_id)

/-- Write back the updated event row under the given primary key. -/
def replaceEvent (events : List Event) (event_id : Nat) (upd : Event) : List Event :=
  events.map (fun e => if e.id == event_id then upd else e)

/-- src/app/routers/events.py join_event: 404 when the event is missing,
then the role gate, then insert an attendee row only when the caller has
none yet (idempotent re-join). -/
def join_event (events : List Event) (event_id : Nat) (user : AuthenticatedUser)
    (s : Settings) (fresh_id : Nat) (now : Int) :
    Except ApiError (Event × List Event) :=
  match findEvent events event_id with
  | none => .error .notFound
  | some event =>
    match enforce_event_roles event user s with
    | .error e => .error e
    | .ok _ =>
      if event.attendees.any (fun att => att.user_id == user.id) then
        .ok (event, events)
      else
        let att : EventAttendee :=
          { id := fresh_id
            event_id := event.id
            user_id := user.id
            username := user.username ++ "#" ++ user.discriminator
            created_at := now }
        let upd := { event with attendees := event.attendees ++ [att] }
        .ok (upd, replaceEvent events event_id upd)

/-- Name for the attendee row join_event inserts: the same record
literal as in the handler body. -/
def joinedAttendee (event : Event) (user : AuthenticatedUser) (fresh_id : Nat)
    (now : Int) : EventAttendee :=
  { id := fresh_id
    event_id := event.id
    user_id := user.id
    username := user.username ++ "#" ++ user.discriminator
    created_at := now }

/-- Name for the updated event row join_event writes. -/
def joinedEvent (event : Event) (user : AuthenticatedUser) (fresh_id : Nat)
    (now : Int) : Event :=
  { event with attendees := event.attendees ++ [joinedAttendee event user fresh_id now] }

/-- src/app/routers/events.py leave_event: 404 when the event is missing,
then delete the caller attendee row when present, else a no-op. There is
no role gate on this handler. -/
def leave_event (events : List Event) (event_id : Nat) (user : AuthenticatedUser) :
    Except ApiError (Event × List Event) :=
  match findEvent events event_id with
  | none => .error .notFound
  | some event =>
    if event.attendees.any (fun att => att.user_id == user.id) then
      let upd := { event with attendees := event.attendees.eraseP (fun att => att.user_id == user.id) }
      .ok (upd, replaceEvent events event_id upd)
    else
      .ok (event, events)

/-! Concrete fixtures used to instantiate the theorems below. -/

/-- A configuration with one allow-listed guild and no default event
roles. -/
def wsettings : Settings :=
  { discord_allowed_guild_ids := [11]
    discord_event_role_ids := []
    jwt_secret_key := "k"
    jwt_algorithm := "HS256"
    jwt_expire_minutes := 60 }

/-- Principal alice, member of guild 11 holding role R1. -/
def wuserAlice : AuthenticatedUser :=
  { id := "u1"
    username := "alice"
    discriminator := "0001"
    guild_ids := [11]
    guild_roles := [("11", ["R1"])]
    can_create_events := true }

/-- Principal bob, member of guild 11 holding role R2. -/
def wuserBob : AuthenticatedUser :=
  { wuserAlice with id := "u2", username := "bob", guild_roles := [("11", ["R2"])] }

/-- Principal cara, a third distinct member of guild 11. -/
def wuserCara : AuthenticatedUser :=
  { wuserAlice with id := "u3", username := "cara" }

/-- A well-formed accept payload with a non-blank location. -/
def wpayload : CraftAssignmentCreate :=
  { meet_at := 0, location := "Town", estimated_completion := none }

/-- An open craft request by alice with no assignment yet. -/
def wopen : CraftRequest :=
  { id := 1
    requester_id := "u1"
    requester_name := "alice#0001"
    item_name := "Sword"
    quantity := 1
    notes := none
    status := "open"
    created_at := 10
    assignment := none }

/-- The fulfilled assignment row of the completed fixture request. -/
def wfulfilledAsg : CraftAssignment :=
  { crafter_id := "u2"
    crafter_name := "bob#0001"
    meet_at := 0
    location := "Town"
    estimated_completion := some 5
    status := "fulfilled" }

/-- A completed craft request: bob accepted and it was fulfilled. -/
def wcompleted : CraftRequest :=
  { wopen with status := "completed", assignment := some wfulfilledAsg }

/-- A newer craft request still in open status. -/
def wopenLate : CraftRequest :=
  { wopen with id := 2, created_at := 99 }

/-- An older craft request already accepted by bob. -/
def waccepted : CraftRequest :=
  { wopen with
    id := 3
    status := "accepted"
    created_at := 5
    assignment := some (acceptedAssignment wuserBob wpayload) }

/-- An event in guild 11 that requires role R1, with no attendees yet. -/
def wevent : Event :=
  { id := 1
    title := "Raid"
    description := none
    start_at := 1000
    timezone := none
    created_by := "u1"
    guild_id := some "11"
    required_role_ids := some ["R1"]
    attendees := [] }

/-- An event with no role requirement and no attendees. -/
def wopenEvent : Event :=
  { wevent with id := 2, required_role_ids := none }

/-- A token whose claimed guild 99 is no longer on the allow-list of
wsettings, as after the allow-list shrank post-issuance. -/
def wstaleToken : SignedToken :=
  { claims :=
      { sub := "u1"
        username := "alice"
        discriminator := "0001"
        guild_ids := [99]
        guild_roles := []
        can_create_events := true
        exp := 1000
        iss := "oe-overlay-service" }
    key := "k"
    alg := "HS256" }

/-! Helper lemmas about the list-backed store. -/

theorem find?_eq_head_filter {α : Type} (p : α → Bool) (l : List α) :
    l.find? p = (l.filter p).head? := by
  induction l with
  | nil => rfl
  | cons x xs ih =>
    cases hx : p x with
    | true => rw [List.find?_cons_of_pos _ hx, List.filter_cons_of_pos hx, List.head?_cons]
    | false =>
      rw [List.find?_cons_of_neg _ (by simp [hx]), List.filter_cons_of_neg (by simp [hx]), ih]

theorem find?_map_replace {α : Type} (p : α → Bool) (l : List α) (upd : α)
    (hupd : p upd = true) (hl : (l.find? p).isSome) :
    (l.map (fun x => if p x then upd else x)).find? p = some upd := by
  induction l with
  | nil => simp [List.find?] at hl
  | cons x xs ih =>
    by_cases hx : p x
    · simp [hx, List.find?_cons_of_pos, hupd]
    · have hl2 : (xs.find? p).isSome := by
        simpa [List.find?_cons_of_neg, hx] using hl
      simp [hx, List.find?_cons_of_neg, ih hl2]

theorem filter_map_replace {α : Type} (p : α → Bool) (l : List α) (upd : α)
    (hupd : p upd = true) :
    (l.map (fun x => if p x then upd else x)).filter p = (l.filter p).map (fun _ => upd) := by
  induction l with
  | nil => rfl
  | cons x xs ih =>
    by_cases hx : p x <;> simp [List.filter_cons, hx, hupd, ih]

/-! Helper lemmas about the collation order. -/

theorem lexLt_trans : ∀ (as bs cs : List Nat),
    lexLt as bs = true → lexLt bs cs = true → lexLt as cs = true := by
  intro as
  induction as with
  | nil =>
    intro bs cs hab hbc
    cases bs with
    | nil => simp [lexLt] at hab
    | cons b bs2 =>
      cases cs with
      | nil => simp [lexLt] at hbc
      | cons c cs2 => simp [lexLt]
  | cons a as2 ih =>
    intro bs cs hab hbc
    cases bs with
    | nil => simp [lexLt] at hab
    | cons b bs2 =>
      cases cs with
      | nil => simp [lexLt] at hbc
      | cons c cs2 =>
        simp only [lexLt, Bool.or_eq_true, Bool.and_eq_true, decide_eq_true_eq,
          beq_iff_eq] at hab hbc ⊢
        rcases hab with h1 | ⟨he1, hr1⟩
        · rcases hbc with h2 | ⟨he2, hr2⟩
          · exact Or.inl (by omega)
          · exact Or.inl (by omega)
        · rcases hbc with h2 | ⟨he2, hr2⟩
          · exact Or.inl (by omega)
          · exact Or.inr ⟨by omega, ih bs2 cs2 hr1 hr2⟩

theorem lexLt_eq_of_not : ∀ (as bs : List Nat),
    lexLt as bs = false → lexLt bs as = false → as = bs := by
  intro as
  induction as with
  | nil =>
    intro bs h1 h2
    cases bs with
    | nil => rfl
    | cons b bs2 => simp [lexLt] at h1
  | cons a as2 ih =>
    intro bs h1 h2
    cases bs with
    | nil => simp [lexLt] at h2
    | cons b bs2 =>
      simp only [lexLt, Bool.or_eq_false_iff, Bool.and_eq_false_iff,
        decide_eq_false_iff_not, beq_eq_false_iff_ne, ne_eq] at h1 h2
      obtain ⟨h1a, h1b⟩ := h1
      obtain ⟨h2a, h2b⟩ := h2
      have hab : a = b := by omega
      subst hab
      rcases h1b with h | h
      · exact absurd rfl h
      · rcases h2b with h2c | h2c
        · exact absurd rfl h2c
        · rw [ih bs2 h h2c]

theorem strKey_injective : Function.Injective strKey := by
  intro a b h
  have hinj : Function.Injective Char.toNat := fun x y hxy => Char.ext (UInt32.ext hxy)
  have h2 : a.toList = b.toList := List.map_injective_iff.mpr hinj h
  exact String.toList_inj.mp h2

instance : IsTotal CraftRequest requestOrder := by
  constructor
  intro a b
  by_cases hs : a.status = b.status
  · rcases Int.le_total b.created_at a.created_at with h | h
    · exact Or.inl (Or.inr ⟨hs, h⟩)
    · exact Or.inr (Or.inr ⟨hs.symm, h⟩)
  · by_cases hab : lexLt (strKey a.status) (strKey b.status) = true
    · exact Or.inl (Or.inl hab)
    · have h1 : lexLt (strKey a.status) (strKey b.status) = false :=
        Bool.eq_false_iff.mpr hab
      have hba : lexLt (strKey b.status) (strKey a.status) = true := by
        by_contra hba
        have h2 : lexLt (strKey b.status) (strKey a.status) = false :=
          Bool.eq_false_iff.mpr hba
        exact hs (strKey_injective (lexLt_eq_of_not _ _ h1 h2))
      exact Or.inr (Or.inl hba)

instance : IsTrans CraftRequest requestOrder := by
  constructor
  intro a b c hab hbc
  rcases hab with h1 | ⟨he1, hc1⟩
  · rcases hbc with h2 | ⟨he2, hc2⟩
    · exact Or.inl (lexLt_trans _ _ _ h1 h2)
    · exact Or.inl (he2 ▸ h1)
  · rcases hbc with h2 | ⟨he2, hc2⟩
    · exact Or.inl (he1.symm ▸ h2)
    · exact Or.inr ⟨he1.trans he2, le_trans hc2 hc1⟩

/-- Claim C2: accept fails notFound when no request with the id exists,
conflict when the request status is not open, validation when the
stripped location is blank, and otherwise creates exactly one assignment
with the caller as crafter in status accepted and flips the request
status to accepted. -/
theorem C2_accept_cases (db : List CraftRequest) (rid : Nat)
    (payload : CraftAssignmentCreate) (user : AuthenticatedUser) :
    (findRequest db rid = none → accept_request db rid payload user = .error .notFound) ∧
    (∀ cr, findRequest db rid = some cr → cr.status ≠ "open" →
      accept_request db rid payload user = .error .conflict) ∧
    (∀ cr, findRequest db rid = some cr → cr.status = "open" → pyStrip payload.location = "" →
      accept_request db rid payload user = .error .validationFailed) ∧
    (∀ cr, findRequest db rid = some cr → cr.status = "open" → pyStrip payload.location ≠ "" →
      accept_request db rid payload user =
        .ok (acceptedRequest cr user payload,
             replaceRequest db rid (acceptedRequest cr user payload))) := by
  refine ⟨?_, ?_, ?_, ?_⟩
  · intro h
    simp [accept_request, h]
  · intro cr h hst
    simp [accept_request, h, hst]
  · intro cr h hst hloc
    simp [accept_request, h, hst, hloc]
  · intro cr h hst hloc
    simp [accept_request, acceptedRequest, acceptedAssignment, h, hst, hloc]

/-- Witness for C2 at a concrete input: accepting an already-completed
request is rejected with the conflict error. -/
theorem C2_witness :
    accept_request [wcompleted] 1 wpayload wuserBob = .error .conflict :=
  (C2_accept_cases [wcompleted] 1 wpayload wuserBob).2.1 wcompleted rfl (by decide)

/-- Claim C1: for an open request, the lock taken before the status check
serializes the two accept calls, so whichever runs first succeeds and the
later one fails with the conflict error, and exactly one assignment row
exists for the request afterwards, crafted by the winner. Both
serialization orders are instances of this statement (swap u1 and u2). -/
theorem C1_accept_exclusive
    (db : List CraftRequest) (rid : Nat) (cr : CraftRequest)
    (u1 u2 : AuthenticatedUser) (p1 p2 : CraftAssignmentCreate)
    (hrow : db.filter (fun r => r.id == rid) = [cr])
    (hopen : cr.status = "open")
    (hloc1 : pyStrip p1.location ≠ "")
    (hdistinct : u1.id ≠ u2.id) :
    accept_request db rid p1 u1 =
      .ok (acceptedRequest cr u1 p1, replaceRequest db rid (acceptedRequest cr u1 p1)) ∧
    accept_request (replaceRequest db rid (acceptedRequest cr u1 p1)) rid p2 u2 =
      .error .conflict ∧
    (acceptedRequest cr u1 p1).status = "accepted" ∧
    assignmentsFor (replaceRequest db rid (acceptedRequest cr u1 p1)) rid =
      [acceptedAssignment u1 p1] := by
  have hfind : findRequest db rid = some cr := by
    rw [findRequest, find?_eq_head_filter, hrow]
    rfl
  have hmem : cr ∈ db.filter (fun r => r.id == rid) := by
    rw [hrow]
    exact List.mem_singleton.mpr rfl
  have hcrid : (cr.id == rid) = true := (List.mem_filter.mp hmem).2
  have hcrid2 : ((acceptedRequest cr u1 p1).id == rid) = true := hcrid
  refine ⟨?_, ?_, rfl, ?_⟩
  · simp [accept_request, acceptedRequest, acceptedAssignment, hfind, hopen, hloc1]
  · have hfind2 : findRequest (replaceRequest db rid (acceptedRequest cr u1 p1)) rid =
        some (acceptedRequest cr u1 p1) := by
      rw [findRequest, replaceRequest]
      refine find?_map_replace _ db _ hcrid2 ?_
      rw [show db.find? (fun r => r.id == rid) = findRequest db rid from rfl, hfind]
      rfl
    simp only [accept_request, hfind2]
    simp [acceptedRequest]
  · rw [assignmentsFor, replaceRequest, filter_map_replace _ db _ hcrid2, hrow]
    simp [acceptedRequest]

/-- Witness for C1 at a concrete input: bob and cara race for the open
request of alice; bob (run first) wins and cara gets the conflict. -/
theorem C1_witness :
    accept_request [wopen] 1 wpayload wuserBob =
      .ok (acceptedRequest wopen wuserBob wpayload,
           replaceRequest [wopen] 1 (acceptedRequest wopen wuserBob wpayload)) ∧
    accept_request (replaceRequest [wopen] 1 (acceptedRequest wopen wuserBob wpayload)) 1
      wpayload wuserCara = .error .conflict ∧
    (acceptedRequest wopen wuserBob wpayload).status = "accepted" ∧
    assignmentsFor (replaceRequest [wopen] 1 (acceptedRequest wopen wuserBob wpayload)) 1 =
      [acceptedAssignment wuserBob wpayload] :=
  C1_accept_exclusive [wopen] 1 wopen wuserBob wuserCara wpayload wpayload
    (by decide) rfl (by decide) (by decide)

/-- Counterexample to claim C3: cancel invoked on a request in completed
status by its requester succeeds and flips the status to cancelled; the
handler checks only permission, never the current status, so completed is
not terminal. -/
theorem C3_counterexample :
    (cancel_request [wcompleted] 1 wuserAlice).map (fun out => out.1.status) =
      .ok "cancelled" := by
  rfl

/-- Claim C3 amended: the status is guarded only where the handlers check
it: accept demands status open (conflict otherwise) and complete demands
an existing assignment (validation error before any accept); cancel checks
only permission, so invoked by the requester on a request in completed
status it succeeds and sets the status to cancelled rather than failing. -/
theorem C3_amended (db : List CraftRequest) (rid : Nat)
    (payload : CraftAssignmentCreate) (user : AuthenticatedUser) (now : Int) :
    (∀ cr, findRequest db rid = some cr → cr.status ≠ "open" →
      accept_request db rid payload user = .error .conflict) ∧
    (∀ cr, findRequest db rid = some cr → cr.assignment = none →
      complete_request db rid user now = .error .validationFailed) ∧
    (∀ cr, findRequest db rid = some cr → cr.status = "completed" →
      user.id = cr.requester_id →
      (cancel_request db rid user).map (fun out => out.1.status) = .ok "cancelled") := by
  refine ⟨?_, ?_, ?_⟩
  · intro cr h hst
    simp [accept_request, h, hst]
  · intro cr h hasg
    simp [complete_request, h, hasg]
  · intro cr h hst hu
    simp [cancel_request, h, hu, Except.map]

/-- Witness for C3 amended: completing the open fixture request, which
has no assignment yet, fails with the validation error. -/
theorem C3_witness :
    complete_request [wopen] 1 wuserBob 0 = .error .validationFailed :=
  (C3_amended [wopen] 1 wpayload wuserBob 0).2.1 wopen rfl rfl

/-- Counterexample to claim C4: with a newer open request and an older
accepted request in the store, list_requests places the accepted request
first, because status ascending is lexicographic string order and the
word accepted sorts before the word open; open requests do not surface
first. -/
theorem C4_counterexample :
    (list_requests [wopenLate, waccepted]).map (fun r => r.status) =
      ["accepted", "open"] := by
  decide

/-- Claim C4 amended: list_requests returns all craft requests sorted by
status ascending in lexicographic string order and, within equal status,
by creation time descending; under that order the four statuses sort as
accepted, cancelled, completed, open, so open requests surface last, not
first. -/
theorem C4_list_sorted (db : List CraftRequest) :
    (list_requests db).Perm db ∧
    List.Sorted requestOrder (list_requests db) ∧
    lexLt (strKey "accepted") (strKey "cancelled") = true ∧
    lexLt (strKey "cancelled") (strKey "completed") = true ∧
    lexLt (strKey "completed") (strKey "open") = true :=
  ⟨List.perm_insertionSort requestOrder db,
   List.sorted_insertionSort requestOrder db,
   by decide, by decide, by decide⟩

/-- Claim C9: for an existing request, complete fails validation when no
assignment exists, forbidden when the caller is neither the assignee nor
the requester, and otherwise marks the request completed, the assignment
fulfilled, and backfills estimated_completion to now exactly when it was
unset, keeping it unchanged when set. -/
theorem C9_complete_cases (db : List CraftRequest) (rid : Nat)
    (user : AuthenticatedUser) (now : Int) (cr : CraftRequest)
    (hfind : findRequest db rid = some cr) :
    (cr.assignment = none → complete_request db rid user now = .error .validationFailed) ∧
    (∀ asg, cr.assignment = some asg → asg.crafter_id ≠ user.id → cr.requester_id ≠ user.id →
      complete_request db rid user now = .error .forbidden) ∧
    (∀ asg, cr.assignment = some asg →
      (asg.crafter_id = user.id ∨ cr.requester_id = user.id) →
      complete_request db rid user now =
        .ok (completedRequest cr asg now, replaceRequest db rid (completedRequest cr asg now)) ∧
      (asg.estimated_completion = none →
        (fulfilledAssignment asg now).estimated_completion = some now) ∧
      (∀ t, asg.estimated_completion = some t →
        (fulfilledAssignment asg now).estimated_completion = some t)) := by
  refine ⟨?_, ?_, ?_⟩
  · intro h
    simp [complete_request, hfind, h]
  · intro asg h h1 h2
    simp [complete_request, hfind, h, h1, h2]
  · intro asg h hperm
    have hcond : ¬(asg.crafter_id ≠ user.id ∧ cr.requester_id ≠ user.id) := by tauto
    refine ⟨?_, ?_, ?_⟩
    · simp [complete_request, hfind, h, hcond, completedRequest, fulfilledAssignment]
    · intro he
      simp [fulfilledAssignment, he]
    · intro t he
      simp [fulfilledAssignment, he]

/-- Witness for C9 at a concrete input: bob, the assignee, completes the
fixture request; the stored estimate stays 5 rather than now. -/
theorem C9_witness :
    complete_request [wcompleted] 1 wuserBob 7 =
      .ok (completedRequest wcompleted wfulfilledAsg 7,
           replaceRequest [wcompleted] 1 (completedRequest wcompleted wfulfilledAsg 7)) :=
  ((C9_complete_cases [wcompleted] 1 wuserBob 7 wcompleted rfl).2.2
    wfulfilledAsg rfl (Or.inl rfl)).1

/-- Claim C10: leave_event consults neither the settings nor any role
list (its arguments do not even include them): it fails notFound exactly
when the event is missing, succeeds for every authenticated principal on
an existing event, and never returns the forbidden error. -/
theorem C10_leave_no_gate (events : List Event) (eid : Nat) (user : AuthenticatedUser) :
    (findEvent events eid = none → leave_event events eid user = .error .notFound) ∧
    (∀ e, findEvent events eid = some e → (leave_event events eid user).isOk = true) ∧
    leave_event events eid user ≠ .error .forbidden := by
  refine ⟨?_, ?_, ?_⟩
  · intro h
    simp [leave_event, h]
  · intro e h
    simp only [leave_event, h]
    by_cases ha : e.attendees.any (fun att => att.user_id == user.id)
    · simp [ha, Except.isOk, Except.toBool]
    · simp [ha, Except.isOk, Except.toBool]
  · cases hf : findEvent events eid with
    | none => simp [leave_event, hf]
    | some e =>
      simp only [leave_event, hf]
      by_cases ha : e.attendees.any (fun att => att.user_id == user.id) <;> simp [ha]

/-- Witness for C10 at a concrete input: bob lacks the required role R1
of the fixture event and could not join it, yet leave succeeds. -/
theorem C10_witness :
    (leave_event [wevent] 1 wuserBob).isOk = true :=
  (C10_leave_no_gate [wevent] 1 wuserBob).2.1 wevent rfl

/-- Helper: join_event succeeds whenever the event exists and the role
gate admits the caller, in both the already-joined and the fresh-join
branch. -/
theorem join_isOk_of_gate (events : List Event) (eid : Nat) (e : Event)
    (user : AuthenticatedUser) (s : Settings) (fid : Nat) (now : Int)
    (hfind : findEvent events eid = some e)
    (hgate : enforce_event_roles e user s = .ok ()) :
    (join_event events eid user s fid now).isOk = true := by
  simp only [join_event, hfind, hgate]
  by_cases ha : e.attendees.any (fun att => att.user_id == user.id) <;>
    simp [ha, Except.isOk, Except.toBool]

/-- Claim C5: for an existing event whose role gate admits the caller and
where the caller has no attendee row yet, the first join inserts exactly
one attendee row for the (event, principal) pair, the second join is a
no-op returning the same state, and leave while absent is a no-op that
succeeds with the attendee list unchanged. -/
theorem C5_join_leave_idempotent
    (events : List Event) (eid : Nat) (e : Event) (user : AuthenticatedUser) (s : Settings)
    (fid1 fid2 : Nat) (t1 t2 : Int)
    (hfind : findEvent events eid = some e)
    (hgate : enforce_event_roles e user s = .ok ())
    (habsent : e.attendees.any (fun att => att.user_id == user.id) = false) :
    join_event events eid user s fid1 t1 =
      .ok (joinedEvent e user fid1 t1, replaceEvent events eid (joinedEvent e user fid1 t1)) ∧
    ((joinedEvent e user fid1 t1).attendees.filter
        (fun att => att.user_id == user.id)).length = 1 ∧
    join_event (replaceEvent events eid (joinedEvent e user fid1 t1)) eid user s fid2 t2 =
      .ok (joinedEvent e user fid1 t1, replaceEvent events eid (joinedEvent e user fid1 t1)) ∧
    leave_event events eid user = .ok (e, events) := by
  have h2 : events.find? (fun x : Event => x.id == eid) = some e := hfind
  have heid3 := List.find?_some h2
  have heid : (e.id == eid) = true := by simpa using heid3
  have hnil : e.attendees.filter (fun att => att.user_id == user.id) = [] := by
    rw [List.filter_eq_nil_iff]
    intro a ha
    exact (List.any_eq_false.mp habsent) a ha
  refine ⟨?_, ?_, ?_, ?_⟩
  · simp [join_event, hfind, hgate, habsent, joinedEvent, joinedAttendee]
  · simp [joinedEvent, List.filter_append, hnil, joinedAttendee]
  · have hfind2 : findEvent (replaceEvent events eid (joinedEvent e user fid1 t1)) eid =
        some (joinedEvent e user fid1 t1) := by
      rw [findEvent, replaceEvent]
      refine find?_map_replace _ events _ heid ?_
      rw [show events.find? (fun x => x.id == eid) = findEvent events eid from rfl, hfind]
      rfl
    have hgate2 : enforce_event_roles (joinedEvent e user fid1 t1) user s = .ok () := hgate
    have hjoined : (joinedEvent e user fid1 t1).attendees.any
        (fun att => att.user_id == user.id) = true := by
      simp [joinedEvent, List.any_append, joinedAttendee]
    simp only [join_event, hfind2, hgate2, hjoined]
    simp
  · simp [leave_event, hfind, habsent]

/-- Witness for C5 at a concrete input: bob joins the open fixture event
twice and leaves the event he never joined. -/
theorem C5_witness :
    join_event [wopenEvent] 2 wuserBob wsettings 1 5 =
      .ok (joinedEvent wopenEvent wuserBob 1 5,
           replaceEvent [wopenEvent] 2 (joinedEvent wopenEvent wuserBob 1 5)) ∧
    ((joinedEvent wopenEvent wuserBob 1 5).attendees.filter
        (fun att => att.user_id == wuserBob.id)).length = 1 ∧
    join_event (replaceEvent [wopenEvent] 2 (joinedEvent wopenEvent wuserBob 1 5)) 2
      wuserBob wsettings 3 6 =
      .ok (joinedEvent wopenEvent wuserBob 1 5,
           replaceEvent [wopenEvent] 2 (joinedEvent wopenEvent wuserBob 1 5)) ∧
    leave_event [wopenEvent] 2 wuserBob = .ok (wopenEvent, [wopenEvent]) :=
  C5_join_leave_idempotent [wopenEvent] 2 wopenEvent wuserBob wsettings 1 3 5 6
    rfl rfl rfl

/-- Claim C6: decoding a token freshly issued for an authorized principal
(same key, algorithm and allow-list, before expiry) rebuilds exactly that
principal: subject id, username, discriminator, the guild ids restricted
to the allow-list at issuance, the per-guild role mapping, and the
can-create-events flag. -/
theorem C6_issue_decode_roundtrip
    (p : AuthenticatedUser) (s : Settings) (issued_at now : Int)
    (hne : p.guild_ids ≠ [])
    (hsub : ∀ g ∈ p.guild_ids, g ∈ s.discord_allowed_guild_ids)
    (hexp : now < issued_at + 60 * s.jwt_expire_minutes) :
    get_current_user (some (create_access_token p s issued_at)) s now = .ok p := by
  obtain ⟨g0, gs, hg⟩ : ∃ g0 gs, p.guild_ids = g0 :: gs := by
    cases hu : p.guild_ids with
    | nil => exact absurd hu hne
    | cons a l => exact ⟨a, l, rfl⟩
  have hmem : g0 ∈ s.discord_allowed_guild_ids :=
    hsub g0 (by rw [hg]; exact List.mem_cons_self g0 gs)
  simp [get_current_user, jwt_decode, create_access_token, hexp]
  exact ⟨g0, by rw [hg]; exact List.mem_cons_self g0 gs, hmem⟩

/-- Witness for C6 at a concrete input: a token minted for alice at time
zero decodes back to alice at time ten. -/
theorem C6_witness :
    get_current_user (some (create_access_token wuserAlice wsettings 0)) wsettings 10 =
      .ok wuserAlice :=
  C6_issue_decode_roundtrip wuserAlice wsettings 0 10 (by decide) (by decide) (by decide)

/-- Claim C7: guild membership is re-checked against the current
allow-list on every call: a token with valid signature and expiry whose
claimed guild ids no longer intersect the allow-list fails with the
forbidden error. -/
theorem C7_allowlist_shrink
    (tok : SignedToken) (s : Settings) (now : Int)
    (hkey : tok.key = s.jwt_secret_key) (halg : tok.alg = s.jwt_algorithm)
    (hexp : now < tok.claims.exp)
    (hdisjoint : ∀ g ∈ tok.claims.guild_ids, g ∉ s.discord_allowed_guild_ids) :
    get_current_user (some tok) s now = .error .forbidden := by
  simp [get_current_user, jwt_decode, hkey, halg, hexp]
  exact hdisjoint

/-- Witness for C7 at a concrete input: the stale fixture token claims
only guild 99, which the configured allow-list (guild 11) no longer
carries, so authentication is forbidden despite the valid signature. -/
theorem C7_witness :
    get_current_user (some wstaleToken) wsettings 10 = .error .forbidden :=
  C7_allowlist_shrink wstaleToken wsettings 10 rfl rfl (by decide) (by decide)

/-- Claim C8: the role gate on join resolves the effective required-role
set as the event roles when non-empty, else the configured default; an
empty effective set admits everyone; otherwise join succeeds exactly when
the caller role list for the resolved guild (the event guild, falling
back to the first authorized guild id of the caller) intersects the
effective set, and fails forbidden otherwise. The resolved guild always
exists for an authenticated caller, whose guild id list is non-empty. -/
theorem C8_role_gate
    (events : List Event) (eid : Nat) (e : Event) (user : AuthenticatedUser) (s : Settings)
    (fid : Nat) (now : Int)
    (hfind : findEvent events eid = some e)
    (hne : user.guild_ids ≠ []) :
    (eventGuildId e user).isSome = true ∧
    (effectiveRoles e s = [] → (join_event events eid user s fid now).isOk = true) ∧
    (∀ gid, eventGuildId e user = some gid → effectiveRoles e s ≠ [] →
      (((user.guild_roles.lookup gid).getD []).any
          (fun role => (effectiveRoles e s).contains role) = true →
        (join_event events eid user s fid now).isOk = true) ∧
      (((user.guild_roles.lookup gid).getD []).any
          (fun role => (effectiveRoles e s).contains role) = false →
        join_event events eid user s fid now = .error .forbidden)) := by
  obtain ⟨g0, gs, hg⟩ : ∃ g0 gs, user.guild_ids = g0 :: gs := by
    cases hu : user.guild_ids with
    | nil => exact absurd hu hne
    | cons a l => exact ⟨a, l, rfl⟩
  refine ⟨?_, ?_, ?_⟩
  · cases hge : e.guild_id with
    | none => simp [eventGuildId, hge, hg]
    | some g =>
      by_cases hgE : g = "" <;> simp [eventGuildId, hge, hgE, hg]
  · intro hroles
    have hgate : enforce_event_roles e user s = .ok () := by
      simp [enforce_event_roles, hroles]
    exact join_isOk_of_gate events eid e user s fid now hfind hgate
  · intro gid hgid hroles
    have hempty : (effectiveRoles e s).isEmpty = false := by
      cases hr : effectiveRoles e s with
      | nil => exact absurd hr hroles
      | cons a l => rfl
    constructor
    · intro hint
      have hgate : enforce_event_roles e user s = .ok () := by
        simp only [enforce_event_roles, hempty, hgid, hint]
        simp
      exact join_isOk_of_gate events eid e user s fid now hfind hgate
    · intro hint
      have hgate : enforce_event_roles e user s = .error .forbidden := by
        simp only [enforce_event_roles, hempty, hgid, hint]
        simp
      simp [join_event, hfind, hgate]

/-- Witness for C8 at a concrete input: the fixture event requires role
R1 in guild 11; bob holds only R2 there, so his join is forbidden. -/
theorem C8_witness :
    join_event [wevent] 1 wuserBob wsettings 5 0 = .error .forbidden :=
  ((C8_role_gate [wevent] 1 wevent wuserBob wsettings 5 0 rfl (by decide)).2.2 "11"
    rfl (by decide)).2 (by decide)

end Overlay
